import Mathlib

/-!
Verification of the CRB compatibility header `src/crb_patch/tpm.h` and of the
command-exchange protocol its specification describes.

The header itself contains only declarations (constants, the `tpm_chip` and
`tpm_class_ops` structures, and extern prototypes).  The constants and the
shapes of the two structures are embedded directly from the source.  The
Status Poller, Locality Manager and Command Exchange Engine are not present
under `src/`; they are modelled from the specification, as marked on each
definition.
-/

namespace TpmCrb

/-- From src/crb_patch/tpm.h line 17: the TPM command header size in bytes. -/
def TPM_HEADER_SIZE : Nat := 10

/-- From src/crb_patch/tpm.h line 20: TPM2 timeout A in milliseconds. -/
def TPM2_TIMEOUT_A : Nat := 750

/-- From src/crb_patch/tpm.h line 21: TPM2 timeout B in milliseconds. -/
def TPM2_TIMEOUT_B : Nat := 2000

/-- From src/crb_patch/tpm.h line 22: TPM2 timeout C in milliseconds. -/
def TPM2_TIMEOUT_C : Nat := 750

/-- From src/crb_patch/tpm.h line 23: TPM2 timeout D in milliseconds. -/
def TPM2_TIMEOUT_D : Nat := 750

/-- The kernel `BIT(n)` macro. -/
def BIT (n : Nat) : Nat := 2 ^ n

/-- From src/crb_patch/tpm.h line 26. -/
def TPM_CHIP_FLAG_TPM2 : Nat := BIT 0

/-- From src/crb_patch/tpm.h line 27. -/
def TPM_CHIP_FLAG_HWRNG_DISABLED : Nat := BIT 1

/-- From src/crb_patch/tpm.h line 30. -/
def TPM_OPS_AUTO_STARTUP : Nat := BIT 0

/-- From src/crb_patch/tpm.h line 34: ACPI TPM2 start-method code. -/
def ACPI_TPM2_START_METHOD : Nat := 2

/-- From src/crb_patch/tpm.h line 37. -/
def ACPI_TPM2_MEMORY_MAPPED : Nat := 6

/-- From src/crb_patch/tpm.h line 40. -/
def ACPI_TPM2_COMMAND_BUFFER : Nat := 7

/-- From src/crb_patch/tpm.h line 43. -/
def ACPI_TPM2_COMMAND_BUFFER_WITH_START_METHOD : Nat := 8

/-- From src/crb_patch/tpm.h line 46. -/
def ACPI_TPM2_COMMAND_BUFFER_WITH_ARM_SMC : Nat := 11

/-- From src/crb_patch/tpm.h line 49. -/
def ACPI_TPM2_COMMAND_BUFFER_WITH_PLUTON : Nat := 13

/-- From src/crb_patch/tpm.h line 52. -/
def ACPI_TPM2_CRB_WITH_ARM_FFA : Nat := 15

/-- A `u8` value: a single byte. -/
abbrev Byte := Fin 256

/-! ## Shapes of the two structures declared in the header

The member inventory of `struct tpm_class_ops` (src/crb_patch/tpm.h lines
69-82) and of `struct tpm_chip` (lines 60-66) is embedded as an enumeration
of member names together with the C type of each member. -/

/-- C types occurring in the two structure declarations. -/
inductive CType
  | u8T
  | intT
  | boolT
  | voidT
  | sizeT
  | uintT
  | chipPtr
  | u8Ptr
  | opsPtr
  | deviceT
  | acpiHandleT
deriving DecidableEq

/-- The type of a structure member: a plain data field or a function pointer
with its argument and return types. -/
inductive FieldTy
  | data (t : CType)
  | fn (args : List CType) (ret : CType)
deriving DecidableEq

/-- The members of `struct tpm_class_ops`, src/crb_patch/tpm.h lines 69-82,
in declaration order. -/
inductive OpsMember
  | flags
  | status
  | recv
  | send
  | cancel
  | req_canceled
  | go_idle
  | cmd_ready
  | request_locality
  | relinquish_locality
  | req_complete_mask
  | req_complete_val
deriving DecidableEq

/-- The C type of each `tpm_class_ops` member, read off the source. -/
def opsMemberTy : OpsMember → FieldTy
  | OpsMember.flags => FieldTy.data CType.uintT
  | OpsMember.status => FieldTy.fn [CType.chipPtr] CType.u8T
  | OpsMember.recv => FieldTy.fn [CType.chipPtr, CType.u8Ptr, CType.sizeT] CType.intT
  | OpsMember.send => FieldTy.fn [CType.chipPtr, CType.u8Ptr, CType.sizeT, CType.sizeT] CType.intT
  | OpsMember.cancel => FieldTy.fn [CType.chipPtr] CType.voidT
  | OpsMember.req_canceled => FieldTy.fn [CType.chipPtr, CType.u8T] CType.boolT
  | OpsMember.go_idle => FieldTy.fn [CType.chipPtr] CType.intT
  | OpsMember.cmd_ready => FieldTy.fn [CType.chipPtr] CType.intT
  | OpsMember.request_locality => FieldTy.fn [CType.chipPtr, CType.intT] CType.intT
  | OpsMember.relinquish_locality => FieldTy.fn [CType.chipPtr, CType.intT] CType.intT
  | OpsMember.req_complete_mask => FieldTy.data CType.u8T
  | OpsMember.req_complete_val => FieldTy.data CType.u8T

/-- The nine operations plus the two completion fields the specification
lists for a Transport Binding (spec sections 3 and 6). -/
def specOpsMembers : List OpsMember :=
  [OpsMember.status, OpsMember.send, OpsMember.recv, OpsMember.cancel,
   OpsMember.req_canceled, OpsMember.go_idle, OpsMember.cmd_ready,
   OpsMember.request_locality, OpsMember.relinquish_locality,
   OpsMember.req_complete_mask, OpsMember.req_complete_val]

/-- The members of `struct tpm_chip`, src/crb_patch/tpm.h lines 60-66,
in declaration order. -/
inductive ChipMember
  | dev
  | acpi_dev_handle
  | flags
  | locality
  | ops
deriving DecidableEq

/-- The C type of each `tpm_chip` member, read off the source. -/
def chipMemberTy : ChipMember → FieldTy
  | ChipMember.dev => FieldTy.data CType.deviceT
  | ChipMember.acpi_dev_handle => FieldTy.data CType.acpiHandleT
  | ChipMember.flags => FieldTy.data CType.uintT
  | ChipMember.locality => FieldTy.data CType.intT
  | ChipMember.ops => FieldTy.data CType.opsPtr

/-- The three Device Handle attributes the specification lists (spec
section 3): the behavioral flags, the held locality, and the reference to
the Transport Binding. -/
def specChipMembers : List ChipMember :=
  [ChipMember.flags, ChipMember.locality, ChipMember.ops]

/-! ## The protocol components modelled from the specification

The header declares only the interface; the Status Poller, Locality Manager,
Power-State Controller and Command Exchange Engine exist in the real driver
but not under `src/`.  They are modelled from spec sections 4.1-4.4, 7 and 8
below.  Device behavior over time is represented by oracles inside the
`Binding` structure; real time is an explicit millisecond counter threaded
through every operation. -/

/-- Modelled from the spec: the error taxonomy of section 7. -/
inductive TpmError
  | Timeout
  | LocalityDenied
  | InvalidState
  | BufferOverflow
  | DeviceBusy
  | TransportFailure
deriving DecidableEq

/-- Modelled from the spec: one call on the Transport Binding, recorded in a
trace.  Pure status reads are not traced (spec 4.1: the poller has no side
effects beyond reads). -/
inductive TCall
  | send (bytes : List Byte)
  | recv
  | cancel
  | goIdle
  | cmdReady
  | requestLocality (l : Nat)
  | relinquishLocality (l : Nat)
deriving DecidableEq

/-- Modelled from the spec: a Transport Binding (spec sections 3 and 6).
The nine operations and the two completion fields of `tpm_class_ops` are
represented by oracles giving each primitive's observable outcome; the
device's status register, locality grants and ready bit are functions of
the elapsed time in milliseconds. -/
structure Binding where
  bufferSize : Nat
  req_complete_mask : Byte
  req_complete_val : Byte
  statusAt : Nat → Byte
  req_canceled : Byte → Bool
  sendOk : Bool
  recvBytes : List Byte
  cmd_readyOk : Bool
  go_idleOk : Bool
  request_localityOk : Nat → Bool
  localityGrantedAt : Nat → Nat → Bool
  readyAt : Nat → Bool

/-- Modelled from the spec: the completion predicate of section 4.1,
`(status AND mask) == value` with mask and value taken from the binding. -/
def req_complete (b : Binding) (s : Byte) : Bool :=
  Nat.land s.val b.req_complete_mask.val == b.req_complete_val.val

/-- Modelled from the spec: the completion sample the engine polls on, the
completion predicate applied to the status byte read at time `u`. -/
def completionSample (b : Binding) (u : Nat) : Bool :=
  req_complete b (b.statusAt u)

/-- Modelled from the spec: the poller's sampling interval in milliseconds
(implementation-defined; spec 4.1 requires it short relative to the
timeouts). -/
def pollInterval : Nat := 1

/-- Modelled from the spec: the sampling loop of the Status Poller.  Given
`fuel` remaining samples and the current time `t`, it samples at times
`t, t + interval, ...`; it returns the sampling time at which the predicate
first held (or `none`), paired with the final elapsed time. -/
def pollGo (sample : Nat → Bool) (interval : Nat) : Nat → Nat → Option Nat × Nat
  | 0, t => (none, t)
  | fuel + 1, t =>
      if sample t then (some t, t) else pollGo sample interval fuel (t + interval)

/-- Modelled from the spec: `poll_until` of section 4.1.  It samples the
predicate starting at time `start` every `interval` milliseconds, succeeds
as soon as the predicate holds, and fails with `Timeout` once the elapsed
time exceeds `timeout`.  It returns the result paired with the time at
which it returned. -/
def poll_until (sample : Nat → Bool) (timeout interval start : Nat) :
    Except TpmError Nat × Nat :=
  match pollGo sample interval (timeout / interval + 1) start with
  | (some t, tf) => (Except.ok t, tf)
  | (none, tf) => (Except.error TpmError.Timeout, tf)

deriving instance DecidableEq for Except

/-- The outcome of a Locality Manager step: the result, the locality held
afterwards, the transport calls made, and the time on return. -/
structure LocStep where
  res : Except TpmError Unit
  held : Option Nat
  calls : List TCall
  time : Nat
deriving DecidableEq

/-- Modelled from the spec: `acquire` of section 4.2.  Re-acquiring an
already-held locality is a no-op success without a transport call; otherwise
the binding's request-locality operation is called and the grant is polled
for, bounded by Timeout-A; a refused request is `LocalityDenied`, and a poll
timeout is a `Timeout` with a best-effort relinquish. -/
def acquire (b : Binding) (held : Option Nat) (l : Nat) (t : Nat) : LocStep :=
  if held = some l then
    ⟨Except.ok (), held, [], t⟩
  else if b.request_localityOk l then
    match poll_until (fun u => b.localityGrantedAt l u) TPM2_TIMEOUT_A pollInterval t with
    | (Except.ok _, tf) =>
        ⟨Except.ok (), some l, [TCall.requestLocality l], tf⟩
    | (Except.error _, tf) =>
        ⟨Except.error TpmError.Timeout, held,
          [TCall.requestLocality l, TCall.relinquishLocality l], tf⟩
  else
    ⟨Except.error TpmError.LocalityDenied, held, [TCall.requestLocality l], t⟩

/-- Modelled from the spec: `release` of section 4.2.  Releasing the held
locality calls relinquish-locality; releasing a locality that is not held is
an `InvalidState` fault. -/
def release (held : Option Nat) (l : Nat) (t : Nat) : LocStep :=
  if held = some l then
    ⟨Except.ok (), none, [TCall.relinquishLocality l], t⟩
  else
    ⟨Except.error TpmError.InvalidState, held, [], t⟩

/-- Modelled from the spec: the guaranteed-release step of section 4.4
item 7 — whatever locality is still held is relinquished on every exit
path. -/
def releaseAlways (held : Option Nat) : Option Nat × List TCall :=
  match held with
  | some l => (none, [TCall.relinquishLocality l])
  | none => (none, [])

/-- The outcome of a command exchange: the response bytes or an error, the
locality held by the Device Handle on return, the trace of transport calls,
and the time on return. -/
structure ExchangeOut where
  result : Except TpmError (List Byte)
  locality : Option Nat
  calls : List TCall
  time : Nat
deriving DecidableEq

/-- Prepend already-made transport calls to an exchange outcome. -/
def mergeCalls (o : ExchangeOut) (pre : List TCall) : ExchangeOut :=
  ⟨o.result, o.locality, pre ++ o.calls, o.time⟩

/-- Modelled from the spec: the grace bound for the post-cancel poll of
section 4.4 item 6 ("poll briefly for the request-canceled predicate"). -/
def CANCEL_GRACE : Nat := TPM2_TIMEOUT_C

/-- Modelled from the spec: the cancel path of section 4.4 item 6 — invoke
cancel, poll briefly for the binding's request-canceled predicate, then
force-release the locality and surface the error.  Per section 7, a cancel
that is never confirmed still returns the error rather than hanging. -/
def cancelPath (b : Binding) (held : Option Nat) (t : Nat) (e : TpmError) : ExchangeOut :=
  let tf := (poll_until (fun u => b.req_canceled (b.statusAt u)) CANCEL_GRACE pollInterval t).2
  let r := releaseAlways held
  ⟨Except.error e, r.1, TCall.cancel :: r.2, tf⟩

/-- Modelled from the spec: `exchange` of section 4.4.  The command is
rejected with `BufferOverflow` before any transport call if it exceeds the
buffer size; otherwise locality 0 is acquired, the device is made ready
(cmd-ready then a Timeout-B poll), the command is sent, completion is polled
bounded by Timeout-C plus Timeout-D, and the response is received; every
timeout takes the cancel path, and the locality is released on every exit
path. -/
def exchange (b : Binding) (cmd : List Byte) : ExchangeOut :=
  if b.bufferSize < cmd.length then
    ⟨Except.error TpmError.BufferOverflow, none, [], 0⟩
  else
    match acquire b none 0 0 with
    | ⟨Except.error e, h1, c1, t1⟩ =>
        ⟨Except.error e, (releaseAlways h1).1, c1 ++ (releaseAlways h1).2, t1⟩
    | ⟨Except.ok _, h1, c1, t1⟩ =>
        if b.cmd_readyOk then
          match poll_until b.readyAt TPM2_TIMEOUT_B pollInterval t1 with
          | (Except.ok _, t2) =>
              if b.sendOk then
                match poll_until (completionSample b)
                    (TPM2_TIMEOUT_C + TPM2_TIMEOUT_D) pollInterval t2 with
                | (Except.ok _, t3) =>
                    ⟨Except.ok b.recvBytes, (releaseAlways h1).1,
                      c1 ++ [TCall.cmdReady, TCall.send cmd, TCall.recv]
                        ++ (releaseAlways h1).2, t3⟩
                | (Except.error _, t3) =>
                    mergeCalls (cancelPath b h1 t3 TpmError.Timeout)
                      (c1 ++ [TCall.cmdReady, TCall.send cmd])
              else
                mergeCalls (cancelPath b h1 t2 TpmError.TransportFailure)
                  (c1 ++ [TCall.cmdReady, TCall.send cmd])
          | (Except.error _, t2) =>
              mergeCalls (cancelPath b h1 t2 TpmError.Timeout)
                (c1 ++ [TCall.cmdReady])
        else
          mergeCalls (cancelPath b h1 t1 TpmError.TransportFailure)
            (c1 ++ [TCall.cmdReady])

/-- A Transport Binding whose device answers every request at once: the
status register always reads 1, matching a completion mask and value of 1;
locality grants and the ready bit hold immediately. -/
def bindingOk : Binding :=
  ⟨4096, 1, 1, fun _ => 1, fun _ => false, true, [], true, true,
    fun _ => true, fun _ _ => true, fun _ => true⟩

/-- A Transport Binding identical to `bindingOk` but with a four-byte
buffer, for the overflow scenario. -/
def bindingSmall : Binding :=
  ⟨4, 1, 1, fun _ => 1, fun _ => false, true, [], true, true,
    fun _ => true, fun _ _ => true, fun _ => true⟩

/-- A ten-byte all-zero command, the size of a TPM command header. -/
def cmdHeader : List Byte := List.replicate TPM_HEADER_SIZE 0

/-- A five-byte command, one byte more than `bindingSmall`'s buffer. -/
def cmdFive : List Byte := List.replicate 5 0

/-! ## Helper lemmas -/

theorem releaseAlways_fst (h : Option Nat) : (releaseAlways h).1 = none := by
  cases h <;> rfl

theorem cancelPath_locality (b : Binding) (h : Option Nat) (t : Nat) (e : TpmError) :
    (cancelPath b h t e).locality = none := by
  simp [cancelPath, releaseAlways_fst]

theorem exchange_locality_eq_none (b : Binding) (cmd : List Byte) :
    (exchange b cmd).locality = none := by
  unfold exchange
  repeat' split
  all_goals simp [mergeCalls, cancelPath_locality, releaseAlways_fst]

theorem pollGo_none_elapsed (sample : Nat → Bool) (interval : Nat) :
    ∀ fuel t tf : Nat, pollGo sample interval fuel t = (none, tf) →
      tf = t + fuel * interval := by
  intro fuel
  induction fuel with
  | zero =>
      intro t tf h
      simp [pollGo] at h
      omega
  | succ f ih =>
      intro t tf h
      by_cases hs : sample t
      · simp [pollGo, hs] at h
      · simp [pollGo, hs] at h
        rw [ih (t + interval) tf h]
        ring

/-! ## Claim theorems -/

/-- C10: the TPM command header size is the fixed constant 10 bytes. -/
theorem tpm_header_size_eq : TPM_HEADER_SIZE = 10 := rfl

/-- C4: the four Timeout Profile durations are the fixed reference-protocol
constants A = 750 ms, B = 2000 ms, C = 750 ms, D = 750 ms, and all four are
positive. -/
theorem timeout_profile_constants :
    TPM2_TIMEOUT_A = 750 ∧ TPM2_TIMEOUT_B = 2000 ∧ TPM2_TIMEOUT_C = 750 ∧
    TPM2_TIMEOUT_D = 750 ∧ 0 < TPM2_TIMEOUT_A ∧ 0 < TPM2_TIMEOUT_B ∧
    0 < TPM2_TIMEOUT_C ∧ 0 < TPM2_TIMEOUT_D := by
  decide

/-- C9: the physical start methods are identified by a fixed set of integer
codes, one per transport-binding variant, and these codes are pairwise
distinct constants. -/
theorem start_method_codes :
    ACPI_TPM2_START_METHOD = 2 ∧ ACPI_TPM2_MEMORY_MAPPED = 6 ∧
    ACPI_TPM2_COMMAND_BUFFER = 7 ∧ ACPI_TPM2_COMMAND_BUFFER_WITH_START_METHOD = 8 ∧
    ACPI_TPM2_COMMAND_BUFFER_WITH_ARM_SMC = 11 ∧
    ACPI_TPM2_COMMAND_BUFFER_WITH_PLUTON = 13 ∧
    ACPI_TPM2_CRB_WITH_ARM_FFA = 15 ∧
    [ACPI_TPM2_START_METHOD, ACPI_TPM2_MEMORY_MAPPED, ACPI_TPM2_COMMAND_BUFFER,
     ACPI_TPM2_COMMAND_BUFFER_WITH_START_METHOD,
     ACPI_TPM2_COMMAND_BUFFER_WITH_ARM_SMC,
     ACPI_TPM2_COMMAND_BUFFER_WITH_PLUTON,
     ACPI_TPM2_CRB_WITH_ARM_FFA].Nodup := by
  decide

/-- C3: for every status byte `s`, the completion predicate holds exactly
when `(s AND mask) = value`, with mask and value the binding's completion
fields; all three quantities are single bytes by type. -/
theorem completion_predicate_spec (b : Binding) (s : Byte) :
    req_complete b s = true ↔
      Nat.land s.val b.req_complete_mask.val = b.req_complete_val.val := by
  simp [req_complete]

/-- C5 counterexample: `struct tpm_class_ops` has a member, `flags`, that is
not among the nine operations and two completion fields the claim lists, so
the structure does not consist of exactly those eleven members. -/
theorem ops_flags_member_not_listed : OpsMember.flags ∉ specOpsMembers := by
  decide

/-- C5 (amended): `struct tpm_class_ops` consists of the nine operations and
the two completion fields with the claimed signatures, plus one additional
operations-flags word of type `unsigned int`. -/
theorem tpm_class_ops_shape :
    (∀ m : OpsMember, m = OpsMember.flags ∨ m ∈ specOpsMembers) ∧
    opsMemberTy OpsMember.status = FieldTy.fn [CType.chipPtr] CType.u8T ∧
    opsMemberTy OpsMember.send =
      FieldTy.fn [CType.chipPtr, CType.u8Ptr, CType.sizeT, CType.sizeT] CType.intT ∧
    opsMemberTy OpsMember.recv =
      FieldTy.fn [CType.chipPtr, CType.u8Ptr, CType.sizeT] CType.intT ∧
    opsMemberTy OpsMember.cancel = FieldTy.fn [CType.chipPtr] CType.voidT ∧
    opsMemberTy OpsMember.req_canceled =
      FieldTy.fn [CType.chipPtr, CType.u8T] CType.boolT ∧
    opsMemberTy OpsMember.go_idle = FieldTy.fn [CType.chipPtr] CType.intT ∧
    opsMemberTy OpsMember.cmd_ready = FieldTy.fn [CType.chipPtr] CType.intT ∧
    opsMemberTy OpsMember.request_locality =
      FieldTy.fn [CType.chipPtr, CType.intT] CType.intT ∧
    opsMemberTy OpsMember.relinquish_locality =
      FieldTy.fn [CType.chipPtr, CType.intT] CType.intT ∧
    opsMemberTy OpsMember.req_complete_mask = FieldTy.data CType.u8T ∧
    opsMemberTy OpsMember.req_complete_val = FieldTy.data CType.u8T ∧
    opsMemberTy OpsMember.flags = FieldTy.data CType.uintT := by
  refine ⟨fun m => ?_, rfl, rfl, rfl, rfl, rfl, rfl, rfl, rfl, rfl, rfl, rfl, rfl⟩
  cases m <;> decide

/-- C8 counterexample: `struct tpm_chip` has a member, `dev`, that is not
among the three attributes the claim lists, so the Device Handle does not
carry exactly those attributes. -/
theorem chip_dev_member_not_listed : ChipMember.dev ∉ specChipMembers := by
  decide

/-- C8 (amended): `struct tpm_chip` carries the flags word with distinct
is-TPM2 and hardware-RNG-disabled bits, the held-locality integer, and the
pointer to its operations, plus the embedded device structure and the ACPI
handle. -/
theorem tpm_chip_shape :
    (∀ m : ChipMember, m = ChipMember.dev ∨ m = ChipMember.acpi_dev_handle ∨
      m ∈ specChipMembers) ∧
    chipMemberTy ChipMember.flags = FieldTy.data CType.uintT ∧
    chipMemberTy ChipMember.locality = FieldTy.data CType.intT ∧
    chipMemberTy ChipMember.ops = FieldTy.data CType.opsPtr ∧
    chipMemberTy ChipMember.dev = FieldTy.data CType.deviceT ∧
    chipMemberTy ChipMember.acpi_dev_handle = FieldTy.data CType.acpiHandleT ∧
    TPM_CHIP_FLAG_TPM2 = 1 ∧ TPM_CHIP_FLAG_HWRNG_DISABLED = 2 ∧
    TPM_CHIP_FLAG_TPM2 ≠ TPM_CHIP_FLAG_HWRNG_DISABLED := by
  refine ⟨fun m => ?_, rfl, rfl, rfl, rfl, rfl, by decide, by decide, by decide⟩
  cases m <;> decide

/-- C7: re-acquiring an already-held locality is an idempotent no-op success
making no transport call and leaving the granted state unchanged, and
releasing a locality that is not held is an `InvalidState` fault. -/
theorem locality_manager_laws (b : Binding) (held : Option Nat) (l t : Nat)
    (hno : held ≠ some l) :
    acquire b (some l) l t = ⟨Except.ok (), some l, [], t⟩ ∧
    (release held l t).res = Except.error TpmError.InvalidState := by
  constructor
  · simp [acquire]
  · simp [release, hno]

theorem locality_manager_laws_witness :
    ((none : Option Nat) ≠ some 0) ∧
    (acquire bindingOk (some 0) 0 5 = ⟨Except.ok (), some 0, [], 5⟩ ∧
     (release none 0 5).res = Except.error TpmError.InvalidState) :=
  ⟨by decide, locality_manager_laws bindingOk none 0 5 (by decide)⟩

/-- C6: a poll whose predicate never becomes true returns the `Timeout`
error only once at least the configured timeout has elapsed since the poll
started, never earlier. -/
theorem poll_timeout_elapsed (sample : Nat → Bool) (timeout interval start : Nat)
    (hi : 0 < interval)
    (h : (poll_until sample timeout interval start).1 = Except.error TpmError.Timeout) :
    start + timeout ≤ (poll_until sample timeout interval start).2 := by
  rcases hp : pollGo sample interval (timeout / interval + 1) start with ⟨o, tf⟩
  cases o with
  | some t =>
      exfalso
      simp only [poll_until, hp] at h
      exact Except.noConfusion h
  | none =>
      simp only [poll_until, hp]
      have htf := pollGo_none_elapsed sample interval _ start tf hp
      have hmod := Nat.div_add_mod timeout interval
      have hlt := Nat.mod_lt timeout hi
      have hexp : (timeout / interval + 1) * interval =
          interval * (timeout / interval) + interval := by ring
      rw [htf, hexp]
      linarith

theorem poll_timeout_elapsed_witness :
    0 < 1 ∧
    (poll_until (fun _ => false) 2 1 0).1 = Except.error TpmError.Timeout ∧
    0 + 2 ≤ (poll_until (fun _ => false) 2 1 0).2 :=
  ⟨Nat.one_pos, rfl, poll_timeout_elapsed (fun _ => false) 2 1 0 Nat.one_pos rfl⟩

/-- C1: for every command that fits the transport buffer, `exchange` returns
either a response or a well-defined error, and on every exit path — success
and every error path alike — the Device Handle holds no locality on
return. -/
theorem exchange_release_always (b : Binding) (cmd : List Byte)
    (_hlen : cmd.length ≤ b.bufferSize) :
    ((∃ r, (exchange b cmd).result = Except.ok r) ∨
      (∃ e, (exchange b cmd).result = Except.error e)) ∧
    (exchange b cmd).locality = none := by
  refine ⟨?_, exchange_locality_eq_none b cmd⟩
  cases h : (exchange b cmd).result with
  | ok r => exact Or.inl ⟨r, rfl⟩
  | error e => exact Or.inr ⟨e, rfl⟩

theorem exchange_release_always_witness :
    cmdHeader.length ≤ bindingOk.bufferSize ∧
    (((∃ r, (exchange bindingOk cmdHeader).result = Except.ok r) ∨
      (∃ e, (exchange bindingOk cmdHeader).result = Except.error e)) ∧
     (exchange bindingOk cmdHeader).locality = none) :=
  ⟨by decide, exchange_release_always bindingOk cmdHeader (by decide)⟩

/-- C2: a command exceeding the transport buffer size is rejected
immediately with `BufferOverflow`: no transport call is made, no locality is
held, and no time passes. -/
theorem exchange_buffer_overflow (b : Binding) (cmd : List Byte)
    (hlen : b.bufferSize < cmd.length) :
    exchange b cmd = ⟨Except.error TpmError.BufferOverflow, none, [], 0⟩ := by
  unfold exchange
  rw [if_pos hlen]

theorem exchange_buffer_overflow_witness :
    bindingSmall.bufferSize < cmdFive.length ∧
    exchange bindingSmall cmdFive =
      ⟨Except.error TpmError.BufferOverflow, none, [], 0⟩ :=
  ⟨by decide, exchange_buffer_overflow bindingSmall cmdFive (by decide)⟩

end TpmCrb
